import Mathlib

/-!
Shallow embedding of `pusczko_final_project.py` (Boston Trees Explorer, a
Streamlit dashboard over a pandas DataFrame of tree records).

A DataFrame is a `List Row`.  Numeric columns (`dbh`, `point_x`, `point_y`)
hold `Option ℚ`: `none` models a pandas missing value (NaN), and — matching
pandas semantics — every comparison against a missing value is `false`.
Text columns hold `Option String`.  CSV cells before `load_data`'s
`pd.to_numeric(..., errors='coerce')` are modelled by `Cell`, and Python's
`int()` truncation toward zero by `pyInt`.
-/

namespace BostonTrees

/-- One record of the loaded table (one CSV row after `load_data`). -/
structure Row where
  spp_com : Option String
  dbh : Option ℚ
  point_x : Option ℚ
  point_y : Option ℚ
  neighborhood : Option String
  park : Option String
deriving DecidableEq

/-- A raw CSV cell, before numeric coercion: a number, free text, or missing. -/
inductive Cell where
  | num (q : ℚ)
  | text (s : String)
  | missing
deriving DecidableEq

/-- One raw CSV record, as `pd.read_csv` delivers it. -/
structure RawRow where
  spp_com : Cell
  dbh : Cell
  point_x : Cell
  point_y : Cell
  neighborhood : Cell
  park : Cell
deriving DecidableEq

/-- Value of a digit string, most significant digit first. -/
def digitsVal (cs : List Char) : ℕ :=
  cs.foldl (fun n c => n * 10 + (c.toNat - 48)) 0

/-- Parse an unsigned decimal literal (`"12"`, `"12.5"`, `"12."`, `".5"`). -/
def parseUnsigned (cs : List Char) : Option ℚ :=
  let ip := cs.takeWhile (fun c => c ≠ '.')
  match cs.dropWhile (fun c => c ≠ '.') with
  | [] =>
      if !ip.isEmpty && ip.all Char.isDigit then some ((digitsVal ip : ℚ))
      else none
  | _ :: fp =>
      if (!ip.isEmpty || !fp.isEmpty) && ip.all Char.isDigit && fp.all Char.isDigit then
        some ((digitsVal ip : ℚ) + (digitsVal fp : ℚ) / (10 : ℚ) ^ fp.length)
      else none

/-- Strip leading and trailing spaces. -/
def stripSpaces (cs : List Char) : List Char :=
  ((cs.dropWhile (fun c => c = ' ')).reverse.dropWhile (fun c => c = ' ')).reverse

/-- Parse a decimal numeral the way `pd.to_numeric` accepts plain literals;
`none` for non-numeric text. -/
def parseRat (s : String) : Option ℚ :=
  match stripSpaces s.toList with
  | '-' :: rest => (parseUnsigned rest).map (fun q => -q)
  | '+' :: rest => parseUnsigned rest
  | cs => parseUnsigned cs

/-- `pd.to_numeric(col, errors='coerce')` on one cell: numbers pass through,
parseable text becomes its number, everything else becomes missing. -/
def cellToNum : Cell → Option ℚ
  | .num q => some q
  | .text s => parseRat s
  | .missing => none

/-- A cell read as text (text columns are left untouched by `load_data`). -/
def cellToStr : Cell → Option String
  | .num q => some (toString q)
  | .text s => some s
  | .missing => none

/-- `load_data` on one row: coerce `dbh`, `point_x`, `point_y` to numeric. -/
def loadRow (rr : RawRow) : Row :=
  { spp_com := cellToStr rr.spp_com
    dbh := cellToNum rr.dbh
    point_x := cellToNum rr.point_x
    point_y := cellToNum rr.point_y
    neighborhood := cellToStr rr.neighborhood
    park := cellToStr rr.park }

/-- `load_data`: read the CSV and coerce the numeric columns
(lines 14–21 of the source). -/
def load_data (raws : List RawRow) : List Row :=
  raws.map loadRow

/-- `filter_trees_by_dbh(df, min_dbh, max_dbh)` (lines 25–26):
`df[(df['dbh'] >= min_dbh) & (df['dbh'] <= max_dbh)]`.  A missing `dbh`
compares false on both sides, as NaN does in pandas. -/
def filter_trees_by_dbh (df : List Row) (min_dbh max_dbh : ℚ) : List Row :=
  df.filter (fun r =>
    match r.dbh with
    | some d => decide (min_dbh ≤ d) && decide (d ≤ max_dbh)
    | none => false)

/-- Number of occurrences of `s` in `l`. -/
def countOcc (l : List String) (s : String) : ℕ :=
  (l.filter (fun t => decide (t = s))).length

/-- Distinct values of `l` in order of first appearance, skipping the ones
already in `seen`. -/
def dedupFirstAux : List String → List String → List String
  | [], _ => []
  | x :: xs, seen =>
      if x ∈ seen then dedupFirstAux xs seen
      else x :: dedupFirstAux xs (x :: seen)

/-- Distinct values of a list in order of first appearance. -/
def dedupFirst (l : List String) : List String :=
  dedupFirstAux l []

/-- The descending-count order used by `value_counts`. -/
def vcRel (a b : String × ℕ) : Prop := b.2 ≤ a.2

instance : DecidableRel vcRel := fun a b => Nat.decLe b.2 a.2

/-- `Series.value_counts()`: occurrence counts of the non-missing values,
sorted by count in descending order. -/
def value_counts (l : List String) : List (String × ℕ) :=
  List.insertionSort vcRel ((dedupFirst l).map (fun s => (s, countOcc l s)))

/-- `neighborhood_tree_counts(df, neighborhood)` (lines 28–30): the species
counts of the rows of that neighborhood, and how many such rows there are.
`value_counts` skips rows whose species is missing; the length does not. -/
def neighborhood_tree_counts (df : List Row) (neighborhood : String) :
    List (String × ℕ) × ℕ :=
  let nb_data := df.filter (fun r => decide (r.neighborhood = some neighborhood))
  (value_counts (nb_data.filterMap Row.spp_com), nb_data.length)

/-- What `display_bar_chart` (lines 34–53) puts on screen: the bar series
and the printed top-10 list. -/
structure BarChartView where
  bars : List (String × ℕ)
  top10 : List (String × ℕ)
deriving DecidableEq

/-- `display_bar_chart(series_counts, title, top_n)`: bars are
`series_counts.head(top_n)`, the printed list is its `head(10)`. -/
def display_bar_chart (series_counts : List (String × ℕ)) (top_n : ℕ := 30) :
    BarChartView :=
  let top_series := series_counts.take top_n
  { bars := top_series, top10 := top_series.take 10 }

/-- `df_points['point_x'].between(lo, hi)` on one cell: inclusive bounds,
false on a missing value. -/
def betweenOpt (v : Option ℚ) (lo hi : ℚ) : Bool :=
  match v with
  | some x => decide (lo ≤ x) && decide (x ≤ hi)
  | none => false

/-- Both coordinates present (`dropna(subset=['point_x','point_y'])`). -/
def hasCoords (r : Row) : Bool :=
  r.point_x.isSome && r.point_y.isSome

/-- Lines 58–61 of `build_pydeck_map`: drop rows with a missing coordinate,
then keep longitude in [-180,180] and latitude in [-90,90]. -/
def validPoints (df_points : List Row) : List Row :=
  (df_points.filter hasCoords).filter
    (fun r => betweenOpt r.point_x (-180) 180 && betweenOpt r.point_y (-90) 90)

/-- A row as handed to the PyDeck scatterplot layer: coordinates unchanged,
`dbh` filled with 5, species filled with "Unknown", a color attached. -/
structure MapPoint where
  point_x : Option ℚ
  point_y : Option ℚ
  dbh : ℚ
  spp_com : String
  neighborhood : Option String
  park : Option String
  color : List ℕ
deriving DecidableEq

/-- The ten species colors of lines 75–78. -/
def pdkColors : List (List ℕ) :=
  [[255, 0, 0], [0, 0, 255], [0, 128, 0], [255, 165, 0], [128, 0, 128],
   [165, 42, 42], [255, 192, 203], [0, 255, 255], [255, 255, 0], [0, 0, 0]]

/-- Species seen by the map after the fill: a missing name reads "Unknown". -/
def sppFilled (r : Row) : String :=
  r.spp_com.getD "Unknown"

/-- Line 74: the ten most frequent species names of the plotted rows. -/
def topSpecies (pts : List Row) : List String :=
  ((value_counts (pts.map sppFilled)).take 10).map Prod.fst

/-- Lines 79–82: `color_map.get(s, [169,169,169])` for the top-ten map. -/
def colorMap (top : List String) (s : String) : List ℕ :=
  ((top.zip pdkColors).lookup s).getD [169, 169, 169]

/-- Lines 68–71 and 82 applied to one surviving row: numeric coordinates
are unchanged, missing `dbh` becomes 5, missing species becomes "Unknown",
and the row gets its color. -/
def fillRow (top : List String) (r : Row) : MapPoint :=
  { point_x := r.point_x
    point_y := r.point_y
    dbh := r.dbh.getD 5
    spp_com := sppFilled r
    neighborhood := r.neighborhood
    park := r.park
    color := colorMap top (sppFilled r) }

/-- The data handed to the PyDeck layer: the coordinate-valid rows after
the fills and the color assignment. -/
def mapPoints (df_points : List Row) : List MapPoint :=
  (validPoints df_points).map (fillRow (topSpecies (validPoints df_points)))

/-- What one interaction of `main` puts on screen. -/
inductive AppOutput where
  | barChart (total : ℕ) (bars : List (String × ℕ)) (top10 : List (String × ℕ))
  | mapInfo (msg : String)
  | mapRender (pts : List MapPoint) (legend : List String)
  | pieChart (total : ℕ) (counts : List (String × ℕ))
  | pieMessage (total : ℕ) (msg : String)
  | raisesError
deriving DecidableEq

/-- `st.info` or the "No trees found" `st.write`: a user-visible
informational message shown instead of a chart or map. -/
def isInfoMessage : AppOutput → Bool
  | .mapInfo _ => true
  | .pieMessage _ _ => true
  | _ => false

/-- `build_pydeck_map(df_points)` (lines 56–133): drop invalid coordinates;
if nothing is left, show an info message; otherwise render the layer and
its legend. -/
def build_pydeck_map (df_points : List Row) : AppOutput :=
  let pts := validPoints df_points
  if pts.isEmpty then .mapInfo "No valid coordinate data to display."
  else .mapRender (mapPoints df_points) (topSpecies pts)

/-- Python's `int()` on a float: truncation toward zero. -/
def pyInt (q : ℚ) : ℤ :=
  if 0 ≤ q then ⌊q⌋ else ⌈q⌉

/-- `Series.min()`: minimum of the present values, `NaN` (here `none`)
when every value is missing. -/
def seriesMin : List ℚ → Option ℚ
  | [] => none
  | x :: xs =>
      some (match seriesMin xs with
        | none => x
        | some m => min x m)

/-- `Series.max()`, as `seriesMin`. -/
def seriesMax : List ℚ → Option ℚ
  | [] => none
  | x :: xs =>
      some (match seriesMax xs with
        | none => x
        | some m => max x m)

/-- `df['dbh'].min()` over the loaded table (NaN skipped). -/
def dbhMin (df : List Row) : Option ℚ :=
  seriesMin (df.filterMap Row.dbh)

/-- `df['dbh'].max()` over the loaded table (NaN skipped). -/
def dbhMax (df : List Row) : Option ℚ :=
  seriesMax (df.filterMap Row.dbh)

/-- Lines 172–173: the slider bounds `int(df['dbh'].min())` and
`int(df['dbh'].max())`; `none` when the column has no numeric value, in
which case `int(NaN)` raises a `ValueError`. -/
def sliderBounds (df : List Row) : Option (ℤ × ℤ) :=
  match dbhMin df, dbhMax df with
  | some mn, some mx => some (pyInt mn, pyInt mx)
  | _, _ => none

/-- The diameter-filter page (lines 170–181): compute the slider bounds
(raising when the column is all-missing), filter by the selected range,
then render a pie chart of the species counts or the empty message. -/
def diameterView (df : List Row) (lo hi : ℤ) : AppOutput :=
  match sliderBounds df with
  | none => .raisesError
  | some _ =>
      let filtered := filter_trees_by_dbh df (lo : ℚ) (hi : ℚ)
      let counts := value_counts (filtered.filterMap Row.spp_com)
      if counts.isEmpty then
        .pieMessage filtered.length "No trees found in this diameter range."
      else
        .pieChart filtered.length counts

/-- The user's selection: the sidebar page and its control value. -/
inductive PageSel where
  | neighborhood (nb : String)
  | park (p : String)
  | diameter (lo hi : ℤ)

/-- One interaction of `main` (lines 142–184), in state-passing form: the
result is what appears on screen together with the table afterwards.
Every filter (`df[mask]`) yields a fresh copy, so the loaded `df` is
returned unchanged. -/
def runApp (df : List Row) (sel : PageSel) : AppOutput × List Row :=
  match sel with
  | .neighborhood nb =>
      let res := neighborhood_tree_counts df nb
      let view := display_bar_chart res.1 30
      (.barChart res.2 view.bars view.top10, df)
  | .park p =>
      let park_data := df.filter (fun r => decide (r.park = some p))
      (build_pydeck_map park_data, df)
  | .diameter lo hi =>
      (diameterView df lo hi, df)

/-! ### Concrete sample data (used by witnesses and counterexamples) -/

/-- A fully populated sample record. -/
def rowA : Row :=
  { spp_com := some "Red Maple", dbh := some 5, point_x := some (-71),
    point_y := some 42, neighborhood := some "Allston", park := some "Smith Park" }

/-- A record with a fractional diameter and no species name. -/
def rowNoSpp : Row :=
  { spp_com := none, dbh := some (5 / 2), point_x := none, point_y := none,
    neighborhood := some "Allston", park := none }

/-- A record with no numeric diameter at all. -/
def rowNoNum : Row :=
  { spp_com := some "Oak", dbh := none, point_x := none, point_y := none,
    neighborhood := some "Allston", park := none }

/-- A raw CSV record whose `dbh` cell is non-numeric text. -/
def rawA : RawRow :=
  { spp_com := .text "Oak", dbh := .text "abc", point_x := .num (-71),
    point_y := .num 42, neighborhood := .text "Allston", park := .missing }

/-- A table of 31 rows, each of a different species, in one neighborhood. -/
def df31 : List Row :=
  (List.range 31).map (fun i =>
    { spp_com := some (String.mk [Char.ofNat (65 + i)]), dbh := none,
      point_x := none, point_y := none, neighborhood := some "Allston",
      park := none })

/-! ### Helper lemmas -/

theorem mem_filter_trees {df : List Row} {a b : ℚ} {r : Row} :
    r ∈ filter_trees_by_dbh df a b ↔
      r ∈ df ∧ ∃ d, r.dbh = some d ∧ a ≤ d ∧ d ≤ b := by
  unfold filter_trees_by_dbh
  rw [List.mem_filter]
  cases h : r.dbh with
  | none => simp [h]
  | some d => simp [h, and_assoc]

theorem mem_dedupFirstAux (s : String) : ∀ (l seen : List String),
    s ∈ dedupFirstAux l seen ↔ s ∈ l ∧ s ∉ seen := by
  intro l
  induction l with
  | nil => intro seen; simp [dedupFirstAux]
  | cons x xs ih =>
      intro seen
      by_cases hx : x ∈ seen
      · rw [dedupFirstAux, if_pos hx]
        by_cases hsx : s = x
        · subst hsx; simp [hx, ih]
        · simp [ih, hsx]
      · rw [dedupFirstAux, if_neg hx]
        by_cases hsx : s = x
        · subst hsx; simp [hx]
        · simp only [List.mem_cons, ih, hsx, false_or]

theorem mem_dedupFirst (l : List String) (s : String) :
    s ∈ dedupFirst l ↔ s ∈ l := by
  rw [dedupFirst, mem_dedupFirstAux]
  simp

theorem mem_value_counts {l : List String} {s : String} {k : ℕ} :
    (s, k) ∈ value_counts l ↔ s ∈ l ∧ k = countOcc l s := by
  unfold value_counts
  rw [List.mem_insertionSort, List.mem_map]
  constructor
  · rintro ⟨t, ht, heq⟩
    have h1 : t = s := congrArg Prod.fst heq
    have h2 : countOcc l t = k := congrArg Prod.snd heq
    refine ⟨h1 ▸ (mem_dedupFirst l t).mp ht, ?_⟩
    rw [← h2, h1]
  · rintro ⟨hs, rfl⟩
    exact ⟨s, (mem_dedupFirst l s).mpr hs, rfl⟩

instance : IsTotal (String × ℕ) vcRel :=
  ⟨fun a b => Or.symm (Nat.le_total a.2 b.2)⟩

instance : IsTrans (String × ℕ) vcRel :=
  ⟨fun _ _ _ h₁ h₂ => Nat.le_trans h₂ h₁⟩

theorem sorted_value_counts (l : List String) :
    List.Sorted vcRel (value_counts l) :=
  List.sorted_insertionSort vcRel _

theorem countOcc_filterMap (p : Row → Bool) (s : String) :
    ∀ df : List Row,
      countOcc ((df.filter p).filterMap Row.spp_com) s
        = (df.filter (fun r => p r && decide (r.spp_com = some s))).length := by
  intro df
  induction df with
  | nil => rfl
  | cons r rs ih =>
      by_cases hp : p r
      · cases hsp : r.spp_com with
        | none =>
            simp only [List.filter_cons, hp, if_pos]
            simp only [List.filterMap_cons, hsp]
            simpa [hsp, hp] using ih
        | some t =>
            by_cases hts : t = s
            · subst hts
              simp only [List.filter_cons, hp, if_pos]
              simp only [List.filterMap_cons, hsp]
              simp only [countOcc, List.filter_cons] at ih ⊢
              simp [hsp, hp, ih]
            · simp only [List.filter_cons, hp, if_pos]
              simp only [List.filterMap_cons, hsp]
              simp only [countOcc, List.filter_cons] at ih ⊢
              simp [hsp, hp, hts, ih]
      · simp only [List.filter_cons, hp]
        simpa [hp] using ih

theorem seriesMin_isSome {l : List ℚ} (h : l ≠ []) :
    ∃ m, seriesMin l = some m := by
  cases l with
  | nil => exact absurd rfl h
  | cons x xs => exact ⟨_, rfl⟩

theorem seriesMax_isSome {l : List ℚ} (h : l ≠ []) :
    ∃ m, seriesMax l = some m := by
  cases l with
  | nil => exact absurd rfl h
  | cons x xs => exact ⟨_, rfl⟩

theorem mem_validPoints {df : List Row} {r : Row} :
    r ∈ validPoints df ↔
      r ∈ df ∧ (∃ x, r.point_x = some x ∧ -180 ≤ x ∧ x ≤ 180)
        ∧ ∃ y, r.point_y = some y ∧ -90 ≤ y ∧ y ≤ 90 := by
  unfold validPoints
  rw [List.mem_filter, List.mem_filter]
  cases hx : r.point_x with
  | none => simp [hasCoords, betweenOpt, hx]
  | some x =>
      cases hy : r.point_y with
      | none => simp [hasCoords, betweenOpt, hx, hy]
      | some y => simp [hasCoords, betweenOpt, hx, hy, and_assoc]

theorem pyInt_five_half : pyInt ((5 : ℚ) / 2) = 2 := by
  rw [pyInt, if_pos (by norm_num)]
  norm_num

/-! ### Claims -/

/-- C1: `filter_trees_by_dbh(df, a, b)` keeps exactly the rows whose `dbh`
is present and satisfies `a ≤ dbh ≤ b`: every kept row has a non-missing
`dbh` in the range, and every row of `df` meeting the condition is kept. -/
theorem claim_c1 (df : List Row) (a b : ℚ) (r : Row) :
    r ∈ filter_trees_by_dbh df a b ↔
      r ∈ df ∧ ∃ d, r.dbh = some d ∧ a ≤ d ∧ d ≤ b :=
  mem_filter_trees

theorem claim_c1_witness : rowA ∈ filter_trees_by_dbh [rowA] 0 10 :=
  (claim_c1 [rowA] 0 10 rowA).mpr
    ⟨by simp, 5, rfl, by norm_num, by norm_num⟩

/-- C2: the data handed to the PyDeck layer is exactly `mapPoints`, and
every such point has a non-missing longitude in [-180, 180] and a
non-missing latitude in [-90, 90]. -/
theorem claim_c2 (df : List Row) :
    (∀ pts legend, build_pydeck_map df = .mapRender pts legend →
        pts = mapPoints df)
  ∧ ∀ p ∈ mapPoints df,
      (∃ x, p.point_x = some x ∧ -180 ≤ x ∧ x ≤ 180)
        ∧ ∃ y, p.point_y = some y ∧ -90 ≤ y ∧ y ≤ 90 := by
  constructor
  · intro pts legend h
    unfold build_pydeck_map at h
    by_cases he : (validPoints df).isEmpty
    · simp [he] at h
    · simp only [he, if_neg, Bool.false_eq_true, not_false_iff,
        AppOutput.mapRender.injEq] at h
      exact h.1.symm
  · intro p hp
    unfold mapPoints at hp
    rw [List.mem_map] at hp
    obtain ⟨r, hr, rfl⟩ := hp
    obtain ⟨-, hx, hy⟩ := mem_validPoints.mp hr
    exact ⟨hx, hy⟩

theorem claim_c2_witness :
    (∃ x, (fillRow (topSpecies (validPoints [rowA])) rowA).point_x = some x
        ∧ -180 ≤ x ∧ x ≤ 180)
  ∧ ∃ y, (fillRow (topSpecies (validPoints [rowA])) rowA).point_y = some y
        ∧ -90 ≤ y ∧ y ≤ 90 :=
  (claim_c2 [rowA]).2 _ (by
    unfold mapPoints
    refine List.mem_map_of_mem _ (mem_validPoints.mpr ?_)
    exact ⟨by simp, ⟨-71, rfl, by norm_num, by norm_num⟩,
      ⟨42, rfl, by norm_num, by norm_num⟩⟩)

/-- C4: `neighborhood_tree_counts(df, n)` is a group-and-count: its total
is the number of rows of neighborhood `n` (missing species included), and
its series holds, for each species present there, the number of rows of
neighborhood `n` with that species. -/
theorem claim_c4 (df : List Row) (n : String) :
    (neighborhood_tree_counts df n).2
        = (df.filter (fun r => decide (r.neighborhood = some n))).length
  ∧ ∀ s k, ((s, k) ∈ (neighborhood_tree_counts df n).1 ↔
      (∃ r ∈ df, r.neighborhood = some n ∧ r.spp_com = some s)
      ∧ k = (df.filter (fun r =>
          decide (r.neighborhood = some n) && decide (r.spp_com = some s))).length) := by
  refine ⟨rfl, fun s k => ?_⟩
  show (s, k) ∈ value_counts
      ((df.filter (fun r => decide (r.neighborhood = some n))).filterMap Row.spp_com)
    ↔ _
  rw [mem_value_counts, countOcc_filterMap]
  apply and_congr _ Iff.rfl
  simp only [List.mem_filterMap, List.mem_filter, decide_eq_true_eq]
  constructor
  · rintro ⟨r, ⟨hr, hnb⟩, hsp⟩
    exact ⟨r, hr, hnb, hsp⟩
  · rintro ⟨r, hr, hnb, hsp⟩
    exact ⟨r, ⟨hr, hnb⟩, hsp⟩

/-- C6: no interaction mutates the loaded table: every view works on
derived filtered copies and returns the original `df` unchanged. -/
theorem claim_c6 (df : List Row) (sel : PageSel) :
    (runApp df sel).2 = df := by
  cases sel <;> rfl

/-- C7: every interaction is a deterministic function of the table and
the selection: two runs on the same table and selection produce the same
output. -/
theorem claim_c7 (df : List Row) (sel : PageSel) (o₁ o₂ : AppOutput × List Row)
    (h₁ : runApp df sel = o₁) (h₂ : runApp df sel = o₂) : o₁ = o₂ :=
  h₁.symm.trans h₂

theorem claim_c7_witness :
    (AppOutput.barChart 0 [] [], ([] : List Row))
      = (AppOutput.barChart 0 [] [], ([] : List Row)) :=
  claim_c7 [] (.neighborhood "Allston") _ _ (by rfl) (by rfl)

/-- C3 fails on the code: on a table whose only neighborhood is "Allston",
selecting "Roslindale" in the neighborhood view matches no rows, yet the
app renders a (empty) bar chart and shows no informational message. -/
theorem claim_c3_counterexample :
    ([rowA].filter (fun r => decide (r.neighborhood = some "Roslindale"))).length = 0
  ∧ (runApp [rowA] (PageSel.neighborhood "Roslindale")).1 = .barChart 0 [] []
  ∧ isInfoMessage (runApp [rowA] (PageSel.neighborhood "Roslindale")).1 = false := by
  refine ⟨rfl, rfl, rfl⟩

/-- C3, amended: an empty result set produces a user-visible informational
message instead of a chart for the park-map view and (when the slider
bounds computation succeeds) for the diameter pie-chart view, but the
neighborhood view always renders a bar chart, with no empty-state
message. -/
theorem claim_c3_amended (df : List Row) (p : String) (lo hi : ℤ) (nb : String) :
    ((df.filter (fun r => decide (r.park = some p))).length = 0 →
        (runApp df (.park p)).1 = .mapInfo "No valid coordinate data to display.")
  ∧ (sliderBounds df ≠ none →
        (filter_trees_by_dbh df (lo : ℚ) (hi : ℚ)).length = 0 →
        (runApp df (.diameter lo hi)).1
          = .pieMessage 0 "No trees found in this diameter range.")
  ∧ ∃ bars top10,
      (runApp df (.neighborhood nb)).1
        = .barChart (df.filter (fun r => decide (r.neighborhood = some nb))).length
            bars top10 := by
  refine ⟨?_, ?_, ?_⟩
  · intro h
    rw [List.length_eq_zero] at h
    show build_pydeck_map (df.filter (fun r => decide (r.park = some p))) = _
    rw [h]
    rfl
  · intro hb h
    rw [List.length_eq_zero] at h
    obtain ⟨b, hb'⟩ := Option.ne_none_iff_exists'.mp hb
    show diameterView df lo hi = _
    unfold diameterView
    rw [hb', h]
    rfl
  · exact ⟨_, _, rfl⟩

theorem claim_c3_amended_witness :
    (runApp [rowA] (.park "Nowhere")).1 = .mapInfo "No valid coordinate data to display."
  ∧ (runApp [rowA] (.diameter 6 7)).1
      = .pieMessage 0 "No trees found in this diameter range."
  ∧ ∃ bars top10,
      (runApp [rowA] (.neighborhood "Allston")).1
        = .barChart ([rowA].filter (fun r => decide (r.neighborhood = some "Allston"))).length
            bars top10 :=
  ⟨(claim_c3_amended [rowA] "Nowhere" 6 7 "Allston").1 (by rfl),
   (claim_c3_amended [rowA] "Nowhere" 6 7 "Allston").2.1 (by simp [sliderBounds, dbhMin, dbhMax, rowA, seriesMin, seriesMax])
     (by simp [filter_trees_by_dbh, rowA]; norm_num),
   (claim_c3_amended [rowA] "Nowhere" 6 7 "Allston").2.2⟩

/-- C5: `load_data` leaves each of `dbh`, `point_x`, `point_y` either
numeric or missing — non-numeric text is coerced to missing, never kept —
and the map view replaces a missing `dbh` by the sentinel 5 and a missing
species by the sentinel "Unknown". -/
theorem claim_c5 :
    (∀ (raws : List RawRow) (r : Row), r ∈ load_data raws →
        ∃ rr ∈ raws, r.dbh = cellToNum rr.dbh ∧ r.point_x = cellToNum rr.point_x
          ∧ r.point_y = cellToNum rr.point_y)
  ∧ (∀ s : String, parseRat s = none → cellToNum (Cell.text s) = none)
  ∧ (∀ (df : List Row) (p : MapPoint), p ∈ mapPoints df →
      ∃ r ∈ validPoints df,
        p.dbh = r.dbh.getD 5 ∧ p.spp_com = r.spp_com.getD "Unknown"
        ∧ (r.dbh = none → p.dbh = 5)
        ∧ (r.spp_com = none → p.spp_com = "Unknown")) := by
  refine ⟨?_, ?_, ?_⟩
  · intro raws r hr
    rw [load_data, List.mem_map] at hr
    obtain ⟨rr, hrr, rfl⟩ := hr
    exact ⟨rr, hrr, rfl, rfl, rfl⟩
  · intro s h
    simpa [cellToNum] using h
  · intro df p hp
    rw [mapPoints, List.mem_map] at hp
    obtain ⟨r, hr, rfl⟩ := hp
    refine ⟨r, hr, rfl, rfl, fun h => ?_, fun h => ?_⟩
    · show r.dbh.getD 5 = 5
      rw [h]
      rfl
    · show sppFilled r = "Unknown"
      rw [sppFilled, h]
      rfl

theorem claim_c5_witness :
    (∃ rr ∈ [rawA], (loadRow rawA).dbh = cellToNum rr.dbh
        ∧ (loadRow rawA).point_x = cellToNum rr.point_x
        ∧ (loadRow rawA).point_y = cellToNum rr.point_y)
  ∧ cellToNum (Cell.text "abc") = none := by
  constructor
  · exact claim_c5.1 [rawA] (loadRow rawA) (by simp [load_data])
  · exact claim_c5.2.1 "abc" (by decide)

/-- C8: the slider bounds are the truncations `int(min dbh)` and
`int(max dbh)`; every row whose `dbh` exceeds the truncated maximum is
excluded even by the widest selectable range, and on a table whose maximum
`dbh` is non-integer the reported total is strictly smaller than the
number of rows with a numeric `dbh`. -/
theorem claim_c8 :
    (∀ (df : List Row) (mn mx : ℚ) (r : Row) (d : ℚ),
        dbhMin df = some mn → dbhMax df = some mx →
        r.dbh = some d → ((pyInt mx : ℤ) : ℚ) < d →
        sliderBounds df = some (pyInt mn, pyInt mx)
          ∧ r ∉ filter_trees_by_dbh df ((pyInt mn : ℤ) : ℚ) ((pyInt mx : ℤ) : ℚ))
  ∧ ∃ (df : List Row) (mn mx : ℚ),
      dbhMin df = some mn ∧ dbhMax df = some mx
      ∧ mx ≠ ((pyInt mx : ℤ) : ℚ)
      ∧ (filter_trees_by_dbh df ((pyInt mn : ℤ) : ℚ) ((pyInt mx : ℤ) : ℚ)).length
          < (df.filterMap Row.dbh).length := by
  constructor
  · intro df mn mx r d hmn hmx hd hgt
    constructor
    · unfold sliderBounds
      rw [hmn, hmx]
    · intro hmem
      obtain ⟨-, d', hd', -, hle⟩ := mem_filter_trees.mp hmem
      rw [hd] at hd'
      rw [Option.some.injEq] at hd'
      rw [← hd'] at hle
      exact absurd hle (not_le.mpr hgt)
  · refine ⟨[rowNoSpp], 5 / 2, 5 / 2, rfl, rfl, ?_, ?_⟩
    · rw [pyInt_five_half]
      norm_num
    · rw [pyInt_five_half]
      show (filter_trees_by_dbh [rowNoSpp] ((2 : ℤ) : ℚ) ((2 : ℤ) : ℚ)).length < _
      have : filter_trees_by_dbh [rowNoSpp] ((2 : ℤ) : ℚ) ((2 : ℤ) : ℚ) = [] := by
        unfold filter_trees_by_dbh
        rw [List.filter_cons]
        have h52 : ¬((5 : ℚ) / 2 ≤ ((2 : ℤ) : ℚ)) := by norm_num
        simp [rowNoSpp, h52]
        intro h
        norm_num
      rw [this]
      simp [rowNoSpp]

theorem claim_c8_witness :
    sliderBounds [rowNoSpp] = some (pyInt ((5 : ℚ) / 2), pyInt ((5 : ℚ) / 2))
  ∧ rowNoSpp ∉ filter_trees_by_dbh [rowNoSpp]
      ((pyInt ((5 : ℚ) / 2) : ℤ) : ℚ) ((pyInt ((5 : ℚ) / 2) : ℤ) : ℚ) :=
  claim_c8.1 [rowNoSpp] (5 / 2) (5 / 2) rowNoSpp (5 / 2) rfl rfl rfl
    (by rw [pyInt_five_half]; norm_num)

/-- C9: when every `dbh` is missing, the diameter view applies `int()` to
a missing minimum and raises instead of rendering; when at least one
numeric `dbh` exists, the slider bounds are computed and the view never
raises. -/
theorem claim_c9 (df : List Row) (lo hi : ℤ) :
    (df.filterMap Row.dbh = [] → diameterView df lo hi = .raisesError)
  ∧ (df.filterMap Row.dbh ≠ [] →
      (∃ a b, sliderBounds df = some (a, b))
        ∧ diameterView df lo hi ≠ .raisesError) := by
  constructor
  · intro h
    unfold diameterView sliderBounds dbhMin dbhMax
    rw [h]
    rfl
  · intro h
    obtain ⟨mn, hmn⟩ := seriesMin_isSome h
    obtain ⟨mx, hmx⟩ := seriesMax_isSome h
    have hb : sliderBounds df = some (pyInt mn, pyInt mx) := by
      unfold sliderBounds dbhMin dbhMax
      rw [hmn, hmx]
    refine ⟨⟨_, _, hb⟩, ?_⟩
    unfold diameterView
    rw [hb]
    dsimp only
    split <;> intro hc <;> cases hc

theorem claim_c9_witness :
    diameterView [rowNoNum] 0 5 = .raisesError
  ∧ ((∃ a b, sliderBounds [rowA] = some (a, b))
      ∧ diameterView [rowA] 0 5 ≠ .raisesError) :=
  ⟨(claim_c9 [rowNoNum] 0 5).1 rfl,
   (claim_c9 [rowA] 0 5).2 (by simp [rowA])⟩

/-- C10: the bar chart displays exactly the first 30 entries of the counts
series (which is sorted by descending count, so these are the most
frequent species), the printed top-10 list is exactly its first 10
entries, and on a table with 31 species the sum of the displayed bars is
strictly below the reported neighborhood total. -/
theorem claim_c10 :
    (∀ counts : List (String × ℕ),
        (display_bar_chart counts 30).bars = counts.take 30
        ∧ (display_bar_chart counts 30).top10
            = ((display_bar_chart counts 30).bars).take 10
        ∧ (display_bar_chart counts 30).top10 = counts.take 10)
  ∧ (∀ l : List String, List.Sorted vcRel (value_counts l))
  ∧ ∃ (df : List Row) (nb : String),
      (((display_bar_chart (neighborhood_tree_counts df nb).1 30).bars).map
          Prod.snd).sum
        < (neighborhood_tree_counts df nb).2 := by
  refine ⟨?_, sorted_value_counts, ⟨df31, "Allston", ?_⟩⟩
  · intro counts
    refine ⟨rfl, rfl, ?_⟩
    show (counts.take 30).take 10 = counts.take 10
    rw [List.take_take]
    norm_num
  · decide

end BostonTrees
